import Mathlib

/- Verification of the investment-ledger and internal-transfer logic of the
Personal-Finances repository.  Quantities and money amounts are embedded as
exact rationals; database tables are embedded as lists kept in insertion
(rowid) order. -/

namespace PersonalFinances

/- Embedding of src/backend/src/models/movement.py.  The free-text
`description` and the `created_at` column are omitted: no operation reads
them.  A movement id is represented by the movement's index in the
position's table. -/

inductive MovementType
  | buy
  | sell
deriving DecidableEq

structure Movement where
  movement_type : MovementType
  quantity : ℚ
  price_per_unit : ℚ
  total_amount : ℚ
  movement_datetime : ℤ
deriving DecidableEq

/-- Python `round(x, 2)` rounds half to even; `roundHalfEven` is that rule at
integer precision. -/
def roundHalfEven (x : ℚ) : ℤ :=
  if x - ⌊x⌋ < 1/2 then ⌊x⌋
  else if 1/2 < x - ⌊x⌋ then ⌊x⌋ + 1
  else if ⌊x⌋ % 2 = 0 then ⌊x⌋ else ⌊x⌋ + 1

/-- Python `round(x, 2)` as used by `Movement.__post_init__`. -/
def roundTo2 (x : ℚ) : ℚ := (roundHalfEven (100 * x) : ℚ) / 100

def isBuy (m : Movement) : Bool :=
  match m.movement_type with
  | .buy => true
  | .sell => false

def isSell (m : Movement) : Bool :=
  match m.movement_type with
  | .buy => false
  | .sell => true

/-- `SUM(quantity)` over the buy movements of a position
(`MovementDB._calculate_current_holdings`). -/
def totalBought (movs : List Movement) : ℚ :=
  ((movs.filter isBuy).map (fun m => m.quantity)).sum

/-- `SUM(quantity)` over the sell movements of a position. -/
def totalSold (movs : List Movement) : ℚ :=
  ((movs.filter isSell).map (fun m => m.quantity)).sum

/-- `MovementDB._calculate_current_holdings`: `max(0, total_bought - total_sold)`. -/
def calculate_current_holdings (movs : List Movement) : ℚ :=
  max 0 (totalBought movs - totalSold movs)

/-- Signed running quantity of a movement list: buys minus sells. -/
def cumulativeQuantity (movs : List Movement) : ℚ :=
  totalBought movs - totalSold movs

/-- `ORDER BY movement_datetime ASC`: insert one movement into an
already-sorted list. -/
def insertByTime (m : Movement) : List Movement → List Movement
  | [] => [m]
  | x :: xs =>
    if x.movement_datetime ≤ m.movement_datetime then x :: insertByTime m xs
    else m :: x :: xs

/-- `ORDER BY movement_datetime ASC` over a table held in insertion order. -/
def sortByTime : List Movement → List Movement
  | [] => []
  | x :: xs => insertByTime x (sortByTime xs)

/-- `MovementDB.create_movement` restricted to one position: the
`Movement.__post_init__` validations, the sell-side holdings check, then the
insert.  The returned list is the new movements table. -/
def create_movement (table : List Movement) (ty : MovementType) (quantity price_per_unit : ℚ)
    (dt : ℤ) : Except String (List Movement) :=
  if quantity ≤ 0 then Except.error ("quantity must be positive")
  else if price_per_unit ≤ 0 then Except.error ("price_per_unit must be positive")
  else if ty = MovementType.sell ∧ calculate_current_holdings table < quantity then
    Except.error ("Insufficient holdings")
  else
    Except.ok (table ++
      [{ movement_type := ty
         quantity := quantity
         price_per_unit := price_per_unit
         total_amount := roundTo2 (quantity * price_per_unit)
         movement_datetime := dt }])

/-- The `quantity is not None` validation block of `MovementDB.update_movement`. -/
def qtyError (m : Movement) (table : List Movement) : Option ℚ → Option String
  | none => none
  | some q =>
    if q ≤ 0 then some ("quantity must be positive")
    else if m.movement_type = MovementType.sell ∧
        calculate_current_holdings table + m.quantity < q then
      some ("Insufficient holdings for update")
    else none

/-- The `price_per_unit is not None` validation block of
`MovementDB.update_movement`. -/
def priceError : Option ℚ → Option String
  | none => none
  | some p => if p ≤ 0 then some ("price_per_unit must be positive") else none

/-- `MovementDB.update_movement` restricted to one position, with the movement
identified by its index `i`.  `Except.ok none` is the Python `return None` for
an unknown movement id.  `total_amount` is recomputed as the bare product when
quantity or price changes, exactly as the source does (no rounding there). -/
def update_movement (table : List Movement) (i : Nat) (quantity price_per_unit : Option ℚ)
    (movement_datetime : Option ℤ) : Except String (Option (List Movement)) :=
  match table[i]? with
  | none => Except.ok none
  | some m =>
    match qtyError m table quantity with
    | some e => Except.error e
    | none =>
      match priceError price_per_unit with
      | some e => Except.error e
      | none =>
        let newq := quantity.getD m.quantity
        let newp := price_per_unit.getD m.price_per_unit
        let newtotal :=
          if quantity.isSome ∨ price_per_unit.isSome then newq * newp else m.total_amount
        Except.ok (some (table.set i
          { m with
            quantity := newq
            price_per_unit := newp
            total_amount := newtotal
            movement_datetime := movement_datetime.getD m.movement_datetime }))

/- The FIFO lot queue of `MovementDB.get_position_holdings`. -/

structure Lot where
  quantity : ℚ
  price : ℚ
  remaining : ℚ
deriving DecidableEq

/-- The `while shares_to_sell > 0 and fifo_lots:` loop of
`MovementDB.get_position_holdings`. -/
def sellFromLots : ℚ → List Lot → List Lot
  | _, [] => []
  | s, l :: rest =>
    if 0 < s then
      if l.remaining ≤ s then sellFromLots (s - l.remaining) rest
      else { l with remaining := l.remaining - s } :: rest
    else l :: rest

/-- `sum(lot['remaining'] * lot['price'] for lot in fifo_lots)`. -/
def lotsValue (lots : List Lot) : ℚ := (lots.map (fun l => l.remaining * l.price)).sum

/-- Total units still open in a lot queue. -/
def lotsRemaining (lots : List Lot) : ℚ := (lots.map (fun l => l.remaining)).sum

structure HState where
  total_quantity : ℚ
  total_cost : ℚ
  total_proceeds : ℚ
  fifo_lots : List Lot
deriving DecidableEq

/-- One iteration of the `for movement in movements:` loop of
`MovementDB.get_position_holdings`. -/
def stepMovement (st : HState) (m : Movement) : HState :=
  match m.movement_type with
  | .buy =>
    { st with
      total_quantity := st.total_quantity + m.quantity
      total_cost := st.total_cost + m.total_amount
      fifo_lots := st.fifo_lots ++
        [{ quantity := m.quantity, price := m.price_per_unit, remaining := m.quantity }] }
  | .sell =>
    { st with
      total_quantity := st.total_quantity - m.quantity
      total_proceeds := st.total_proceeds + m.total_amount
      fifo_lots := sellFromLots m.quantity st.fifo_lots }

structure Holdings where
  current_quantity : ℚ
  total_cost : ℚ
  total_proceeds : ℚ
  average_cost_basis : ℚ
  realized_pnl : ℚ
  fifo_lots : List Lot
deriving DecidableEq

/-- `MovementDB.get_position_holdings`: replay the position's movements in
ascending event-time order, then assemble the summary record. -/
def get_position_holdings (movs : List Movement) : Holdings :=
  let st := (sortByTime movs).foldl stepMovement ⟨0, 0, 0, []⟩
  let basis :=
    if st.fifo_lots ≠ [] ∧ 0 < st.total_quantity then lotsValue st.fifo_lots / st.total_quantity
    else 0
  { current_quantity := max 0 st.total_quantity
    total_cost := st.total_cost
    total_proceeds := st.total_proceeds
    average_cost_basis := basis
    realized_pnl := st.total_proceeds - (st.total_cost - lotsValue st.fifo_lots)
    fifo_lots := st.fifo_lots }

/- Embedding of InvestmentPositionDB.get_position_summary
(src/backend/src/models/investment_position.py): the SQL groups movements by
type and sums quantities and totals; the realized figure is computed from the
grouped sums alone. -/

structure Summary where
  current_quantity : ℚ
  cost_basis : ℚ
  total_invested : ℚ
  total_proceeds : ℚ
  realized_pnl : ℚ
deriving DecidableEq

/-- `InvestmentPositionDB.get_position_summary` for one position. -/
def get_position_summary (movs : List Movement) : Summary :=
  let total_quantity := totalBought movs - totalSold movs
  let total_cost := ((movs.filter isBuy).map (fun m => m.total_amount)).sum
  let total_proceeds := ((movs.filter isSell).map (fun m => m.total_amount)).sum
  { current_quantity := max 0 total_quantity
    cost_basis := if 0 < total_quantity then total_cost / total_quantity else 0
    total_invested := total_cost
    total_proceeds := total_proceeds
    realized_pnl := total_proceeds -
      (if 0 < total_cost then total_cost * (total_proceeds / total_cost) else 0) }

/- Embedding of the transaction layer: src/backend/src/models/transaction.py and
src/backend/src/services/transaction_service.py.  Event dates are integers and a
stored row is a Txn, identified by its surrogate id. -/

inductive TransferType
  | card
  | cash
  | stock
  | crypto
deriving DecidableEq

def TransferType.typeName : TransferType → String
  | .card => "card"
  | .cash => "cash"
  | .stock => "stock"
  | .crypto => "crypto"

structure Txn where
  id : Nat
  amount : ℚ
  description : String
  transaction_date : ℤ
  card_id : Option Nat
  section_id : Option Nat
  category : Option String
  is_internal_transfer : Bool
  transfer_from_type : Option TransferType
  transfer_from_id : Option Nat
  transfer_to_type : Option TransferType
  transfer_to_id : Option Nat
deriving DecidableEq

/-- Fresh surrogate key for an insert (sqlite lastrowid). -/
def freshId (store : List Txn) : Nat := store.foldr (fun t m => max t.id m) 0 + 1

/-- Modelled from the spec: the TransactionDB store class is imported by
TransactionService but absent from the repository; per section 6 the transaction
store provides insert_transaction.  Inserting appends a row built from the given
fields under a fresh id. -/
def db_create_transaction (store : List Txn) (amount : ℚ) (description : String)
    (transaction_date : ℤ) (card_id section_id : Option Nat) (category : Option String)
    (is_internal_transfer : Bool) (tft : Option TransferType) (tfi : Option Nat)
    (ttt : Option TransferType) (tti : Option Nat) : Txn × List Txn :=
  let t : Txn := ⟨freshId store, amount, description, transaction_date, card_id, section_id,
    category, is_internal_transfer, tft, tfi, ttt, tti⟩
  (t, store ++ [t])

/-- Modelled from the spec: TransactionDB.get_transaction of the missing store
class, a lookup by id. -/
def db_get_transaction (store : List Txn) (i : Nat) : Option Txn :=
  store.find? (fun t => t.id == i)

/-- Modelled from the spec: TransactionDB.delete_transaction of the missing
store class, removing the row with the given id and reporting whether one
existed. -/
def db_delete_transaction (store : List Txn) (i : Nat) : Bool × List Txn :=
  if store.any (fun t => t.id == i) then (true, store.filter (fun t => t.id != i))
  else (false, store)

/-- Internal-transfer rows sharing the given transfer endpoints and event
date. -/
def matchesTransfer (tft : Option TransferType) (tfi : Option Nat) (ttt : Option TransferType)
    (tti : Option Nat) (d : ℤ) (t : Txn) : Bool :=
  t.is_internal_transfer && (t.transfer_from_type == tft) && (t.transfer_from_id == tfi)
    && (t.transfer_to_type == ttt) && (t.transfer_to_id == tti) && (t.transaction_date == d)

/-- Modelled from the spec: TransactionDB.get_internal_transfer_pair of the
missing store class — the find_transfer_sibling collaborator of section 6 —
returning the stored internal-transfer rows that share the given transfer
endpoints and event date. -/
def db_get_internal_transfer_pair (store : List Txn) (tft : Option TransferType)
    (tfi : Option Nat) (ttt : Option TransferType) (tti : Option Nat) (d : ℤ) : List Txn :=
  store.filter (matchesTransfer tft tfi ttt tti d)

/-- Modelled from the spec: TransactionDB.update_transaction of the missing
store class, overwriting the given non-null bounded fields of the row with the
given id. -/
def db_update_transaction (store : List Txn) (i : Nat) (amount : Option ℚ)
    (description : Option String) (transaction_date : Option ℤ) (category : Option String) :
    List Txn :=
  store.map (fun r =>
    if r.id = i then
      { r with
        amount := amount.getD r.amount
        description := description.getD r.description
        transaction_date := transaction_date.getD r.transaction_date
        category := (category.map some).getD r.category }
    else r)

/-- TransactionService._create_internal_transfer: two store inserts built from
one request, the amount normalized to its absolute value, debit first. -/
def service_create_internal_transfer (store : List Txn) (amount : ℚ) (description : String)
    (transaction_date : ℤ) (tft : TransferType) (tfi : Nat) (ttt : TransferType) (tti : Nat)
    (category : Option String) : Txn × List Txn :=
  let transfer_amount := |amount|
  let debit_card_id := if tft = TransferType.card then some tfi else none
  let debit := db_create_transaction store (-transfer_amount)
    (description ++ " (Transfer out to " ++ ttt.typeName ++ ")") transaction_date
    debit_card_id none category true (some tft) (some tfi) (some ttt) (some tti)
  let credit_card_id := if ttt = TransferType.card then some tti else none
  db_create_transaction debit.2 transfer_amount
    (description ++ " (Transfer in from " ++ tft.typeName ++ ")") transaction_date
    credit_card_id none category true (some tft) (some tfi) (some ttt) (some tti)

/-- TransactionService.create_transaction: for internal transfers all four
transfer fields must be truthy (present and, for the ids, nonzero), then the
paired insert runs; otherwise the section/card relation is validated and one
row is inserted.  `sections` maps section id to owning card id (SectionDB). -/
def service_create_transaction (store : List Txn) (sections : List (Nat × Nat)) (amount : ℚ)
    (description : String) (transaction_date : ℤ) (card_id section_id : Option Nat)
    (category : Option String) (is_internal_transfer : Bool) (tft : Option TransferType)
    (tfi : Option Nat) (ttt : Option TransferType) (tti : Option Nat) :
    Except String (Txn × List Txn) :=
  if is_internal_transfer then
    match tft, tfi, ttt, tti with
    | some ft, some fi, some tt2, some ti =>
      if fi = 0 ∨ ti = 0 then
        Except.error ("Internal transfers require all transfer fields to be specified")
      else
        Except.ok (service_create_internal_transfer store amount description transaction_date
          ft fi tt2 ti category)
    | _, _, _, _ =>
      Except.error ("Internal transfers require all transfer fields to be specified")
  else
    match section_id, card_id with
    | some sid, some cid =>
      if sid ≠ 0 ∧ cid ≠ 0 then
        match sections.find? (fun sc => sc.1 == sid) with
        | some sc =>
          if sc.2 ≠ cid then Except.error ("Section does not belong to the specified card")
          else
            Except.ok (db_create_transaction store amount description transaction_date
              card_id section_id category false tft tfi ttt tti)
        | none => Except.error ("Section does not belong to the specified card")
      else
        Except.ok (db_create_transaction store amount description transaction_date
          card_id section_id category false tft tfi ttt tti)
    | _, _ =>
      Except.ok (db_create_transaction store amount description transaction_date
        card_id section_id category false tft tfi ttt tti)

/-- TransactionService.update_transaction; the returned list is the post-state
of the transactions table. -/
def service_update_transaction (store : List Txn) (i : Nat) (amount : Option ℚ)
    (description : Option String) (transaction_date : Option ℤ) (category : Option String) :
    List Txn × Except String (Option Txn) :=
  match db_get_transaction store i with
  | none => (store, Except.ok none)
  | some t =>
    if t.is_internal_transfer then
      (store, Except.error ("Cannot update internal transfer transactions"))
    else
      let store2 := db_update_transaction store i amount description transaction_date category
      (store2, Except.ok (db_get_transaction store2 i))

/-- TransactionService._delete_internal_transfer: look up every row sharing the
record's transfer endpoints and event date and delete each one, reporting
success only if every delete succeeded. -/
def service_delete_internal_transfer (store : List Txn) (t : Txn) : Bool × List Txn :=
  (db_get_internal_transfer_pair store t.transfer_from_type t.transfer_from_id
      t.transfer_to_type t.transfer_to_id t.transaction_date).foldl
    (fun acc p =>
      let r := db_delete_transaction acc.2 p.id
      (acc.1 && r.1, r.2))
    (true, store)

/-- TransactionService.delete_transaction. -/
def service_delete_transaction (store : List Txn) (i : Nat) : Bool × List Txn :=
  match db_get_transaction store i with
  | none => (false, store)
  | some t =>
    if t.is_internal_transfer then service_delete_internal_transfer store t
    else db_delete_transaction store i

/- Embedding of the Transaction model class itself (transaction.py): an
in-memory Transaction object, validate() against the database state, save(),
and create_internal_transfer().  TxStore is the database file: the cards and
sections tables (ids only) and the transactions table. -/

structure TxStore where
  cards : List Nat
  sections : List Nat
  transactions : List Txn
deriving DecidableEq

structure PyTransaction where
  id : Option Nat
  amount : Option ℚ
  description : String
  transaction_date : Option ℤ
  card_id : Option Nat
  section_id : Option Nat
  category : Option String
  is_internal_transfer : Bool
  transfer_from_type : Option TransferType
  transfer_from_id : Option Nat
  transfer_to_type : Option TransferType
  transfer_to_id : Option Nat
deriving DecidableEq

/-- Python truthiness of an optional integer field (None and 0 are falsy). -/
def truthyId : Option Nat → Bool
  | none => false
  | some n => n != 0

/-- Python `not s or not s.strip()`: the string is empty or whitespace-only. -/
def blankDescription (s : String) : Bool := s.data.all (fun c => c.isWhitespace)

/-- Transaction.validate: collect error strings; a typed transfer endpoint can
only fail the membership test of the source by being absent. -/
def Transaction_validate (st : TxStore) (t : PyTransaction) : List String :=
  (if t.amount = none then ["Amount is required"] else [])
  ++ (if blankDescription t.description then ["Description is required"] else [])
  ++ (if t.transaction_date = none then ["Transaction date is required"] else [])
  ++ (if t.is_internal_transfer then
        (if truthyId t.transfer_from_id = false ∨ truthyId t.transfer_to_id = false ∨
            t.transfer_from_type = none ∨ t.transfer_to_type = none then
          ["Internal transfers require all transfer fields"]
        else [])
        ++ (if t.transfer_from_type = none then ["Invalid transfer_from_type"] else [])
        ++ (if t.transfer_to_type = none then ["Invalid transfer_to_type"] else [])
      else [])
  ++ (match t.card_id with
      | some c => if c ∈ st.cards then [] else ["Card does not exist"]
      | none => [])
  ++ (match t.section_id with
      | some s2 => if s2 ∈ st.sections then [] else ["Section does not exist"]
      | none => [])

/-- Transaction.save: validate, then either insert a new row (id is None) or
update the bounded fields of the existing row.  Each call commits on its own
connection. -/
def Transaction_save (st : TxStore) (t : PyTransaction) :
    TxStore × Except String PyTransaction :=
  if Transaction_validate st t ≠ [] then (st, Except.error ("Validation errors"))
  else
    match t.id with
    | none =>
      match t.amount, t.transaction_date with
      | some a, some d =>
        let newId := freshId st.transactions
        let row : Txn := ⟨newId, a, t.description, d, t.card_id, t.section_id, t.category,
          t.is_internal_transfer, t.transfer_from_type, t.transfer_from_id,
          t.transfer_to_type, t.transfer_to_id⟩
        ({ st with transactions := st.transactions ++ [row] },
         Except.ok { t with id := some newId })
      | _, _ => (st, Except.error ("Validation errors"))
    | some i =>
      match t.amount, t.transaction_date with
      | some a, some d =>
        ({ st with transactions := st.transactions.map (fun r =>
            if r.id = i then
              { r with
                amount := a
                description := t.description
                transaction_date := d
                category := t.category }
            else r) },
         Except.ok t)
      | _, _ => (st, Except.error ("Validation errors"))

/-- Transaction.create_internal_transfer: build the debit and credit objects and
save each one in turn; the second save runs against whatever state the first
save committed. -/
def Transaction_create_internal_transfer (st : TxStore) (amount : ℚ) (description : String)
    (from_card_id to_card_id : Nat) (transaction_date : ℤ) :
    TxStore × Except String (PyTransaction × PyTransaction) :=
  let debit : PyTransaction :=
    { id := none
      amount := some (-|amount|)
      description := "Transfer to card " ++ toString to_card_id ++ ": " ++ description
      transaction_date := some transaction_date
      card_id := some from_card_id
      section_id := none
      category := none
      is_internal_transfer := true
      transfer_from_type := some TransferType.card
      transfer_from_id := some from_card_id
      transfer_to_type := some TransferType.card
      transfer_to_id := some to_card_id }
  match Transaction_save st debit with
  | (st1, Except.error e) => (st1, Except.error e)
  | (st1, Except.ok debitSaved) =>
    let credit : PyTransaction :=
      { id := none
        amount := some |amount|
        description := "Transfer from card " ++ toString from_card_id ++ ": " ++ description
        transaction_date := some transaction_date
        card_id := some to_card_id
        section_id := none
        category := none
        is_internal_transfer := true
        transfer_from_type := some TransferType.card
        transfer_from_id := some from_card_id
        transfer_to_type := some TransferType.card
        transfer_to_id := some to_card_id }
    match Transaction_save st1 credit with
    | (st2, Except.error e) => (st2, Except.error e)
    | (st2, Except.ok creditSaved) => (st2, Except.ok (debitSaved, creditSaved))

/- Helper lemmas about the FIFO lot queue. -/

lemma lotsRemaining_cons (l : Lot) (ls : List Lot) :
    lotsRemaining (l :: ls) = l.remaining + lotsRemaining ls := by
  simp [lotsRemaining]

lemma lotsRemaining_nonneg (lots : List Lot) (h : ∀ l ∈ lots, 0 ≤ l.remaining) :
    0 ≤ lotsRemaining lots := by
  induction lots with
  | nil => simp [lotsRemaining]
  | cons l rest ih =>
    rw [lotsRemaining_cons]
    have h1 := h l (List.mem_cons_self l rest)
    have h2 := ih fun x hx => h x (List.mem_cons_of_mem l hx)
    linarith

lemma sellFromLots_total (s : ℚ) (lots : List Lot) (hs : 0 ≤ s)
    (h : ∀ l ∈ lots, 0 ≤ l.remaining) :
    lotsRemaining (sellFromLots s lots) = lotsRemaining lots - min s (lotsRemaining lots) := by
  induction lots generalizing s with
  | nil => simp [sellFromLots, lotsRemaining, min_eq_right hs]
  | cons l rest ih =>
    have hl : 0 ≤ l.remaining := h l (List.mem_cons_self l rest)
    have hrest : ∀ x ∈ rest, 0 ≤ x.remaining := fun x hx => h x (List.mem_cons_of_mem l hx)
    have hrtot : 0 ≤ lotsRemaining rest := lotsRemaining_nonneg rest hrest
    simp only [sellFromLots]
    by_cases h1 : 0 < s
    · rw [if_pos h1]
      by_cases h2 : l.remaining ≤ s
      · rw [if_pos h2, ih (s - l.remaining) (by linarith) hrest, lotsRemaining_cons]
        have hmin : l.remaining + min (s - l.remaining) (lotsRemaining rest)
            = min s (l.remaining + lotsRemaining rest) := by
          rw [← min_add_add_left]
          congr 1
          ring
        linarith
      · rw [if_neg h2]
        push_neg at h2
        rw [lotsRemaining_cons, lotsRemaining_cons]
        have hmin : min s (l.remaining + lotsRemaining rest) = s := min_eq_left (by linarith)
        rw [hmin]
        ring
    · rw [if_neg h1]
      have hs0 : s = 0 := le_antisymm (not_lt.mp h1) hs
      subst hs0
      rw [min_eq_left (by rw [lotsRemaining_cons]; linarith)]
      ring

lemma sellFromLots_pos (s : ℚ) (lots : List Lot) (hs : 0 ≤ s)
    (h : ∀ l ∈ lots, 0 < l.remaining) :
    ∀ l ∈ sellFromLots s lots, 0 < l.remaining := by
  induction lots generalizing s with
  | nil => simp [sellFromLots]
  | cons l rest ih =>
    simp only [sellFromLots]
    by_cases h1 : 0 < s
    · rw [if_pos h1]
      by_cases h2 : l.remaining ≤ s
      · rw [if_pos h2]
        have hl := h l (List.mem_cons_self l rest)
        exact ih (s - l.remaining) (by linarith) fun x hx => h x (List.mem_cons_of_mem l hx)
      · rw [if_neg h2]
        push_neg at h2
        intro x hx
        rcases List.mem_cons.mp hx with h3 | h3
        · subst h3
          simpa using sub_pos.mpr h2
        · exact h x (List.mem_cons_of_mem l h3)
    · rw [if_neg h1]
      exact h

/-- C1: for buys B1(qty 10 @ 100) and B2(qty 5 @ 200) in event-time order followed
by a sell of qty 12, the open lots are exactly one lot with remaining 3 at unit
price 200; in general each sell step takes min(lot.remaining, sell_remaining) from
the front of the lot queue — so the totals drop by min(sell, open total) — and
lots whose remaining quantity is exhausted are dropped from the queue. -/
theorem fifo_lots_consume_oldest_first :
    ((get_position_holdings
      [⟨MovementType.buy, 10, 100, 1000, 1⟩,
       ⟨MovementType.buy, 5, 200, 1000, 2⟩,
       ⟨MovementType.sell, 12, 150, 1800, 3⟩]).fifo_lots
      = [{ quantity := 5, price := 200, remaining := 3 }])
    ∧ (∀ (s : ℚ) (l : Lot) (rest : List Lot), 0 < s →
        sellFromLots s (l :: rest) =
          if l.remaining ≤ s then sellFromLots (s - l.remaining) rest
          else { l with remaining := l.remaining - s } :: rest)
    ∧ (∀ (s : ℚ) (lots : List Lot), 0 ≤ s → (∀ l ∈ lots, 0 ≤ l.remaining) →
        lotsRemaining (sellFromLots s lots) = lotsRemaining lots - min s (lotsRemaining lots))
    ∧ (∀ (s : ℚ) (lots : List Lot), 0 ≤ s → (∀ l ∈ lots, 0 < l.remaining) →
        ∀ l ∈ sellFromLots s lots, 0 < l.remaining) := by
  refine ⟨?_, ?_, sellFromLots_total, sellFromLots_pos⟩
  · norm_num [get_position_holdings, sortByTime, insertByTime, stepMovement, sellFromLots,
      lotsValue, List.foldl]
  · intro s l rest hs
    simp [sellFromLots, hs]

theorem fifo_lots_consume_oldest_first_witness :
    (sellFromLots 12 [⟨10, 100, 10⟩, ⟨5, 200, 5⟩] =
      if (10 : ℚ) ≤ 12 then sellFromLots (12 - 10) [⟨5, 200, 5⟩]
      else ⟨10, 100, 10 - 12⟩ :: [⟨5, 200, 5⟩])
    ∧ lotsRemaining (sellFromLots 12 [⟨10, 100, 10⟩, ⟨5, 200, 5⟩])
        = lotsRemaining [⟨10, 100, 10⟩, ⟨5, 200, 5⟩]
          - min 12 (lotsRemaining [⟨10, 100, 10⟩, ⟨5, 200, 5⟩])
    ∧ ∀ l ∈ sellFromLots 12 [⟨10, 100, 10⟩, ⟨5, 200, 5⟩], 0 < l.remaining :=
  ⟨fifo_lots_consume_oldest_first.2.1 12 ⟨10, 100, 10⟩ [⟨5, 200, 5⟩] (by norm_num),
   fifo_lots_consume_oldest_first.2.2.1 12 [⟨10, 100, 10⟩, ⟨5, 200, 5⟩] (by norm_num)
     (by decide),
   fifo_lots_consume_oldest_first.2.2.2 12 [⟨10, 100, 10⟩, ⟨5, 200, 5⟩] (by norm_num)
     (by decide)⟩

/- Sums over appended and permuted movement lists. -/

lemma totalBought_append_sell (xs : List Movement) (m : Movement)
    (hm : m.movement_type = MovementType.sell) :
    totalBought (xs ++ [m]) = totalBought xs := by
  simp [totalBought, List.filter_append, isBuy, hm]

lemma totalSold_append_sell (xs : List Movement) (m : Movement)
    (hm : m.movement_type = MovementType.sell) :
    totalSold (xs ++ [m]) = totalSold xs + m.quantity := by
  simp [totalSold, List.filter_append, isSell, hm]

/-- C2 counterexample: a sell of 5 backdated before an existing buy of 10 is
accepted by create_movement, yet the one-movement prefix in ascending event-time
order has cumulative quantity -5 < 0. -/
theorem backdated_sell_accepted_with_negative_prefix :
    create_movement [⟨MovementType.buy, 10, 100, 1000, 2⟩] MovementType.sell 5 100 1
      = Except.ok [⟨MovementType.buy, 10, 100, 1000, 2⟩, ⟨MovementType.sell, 5, 100, 500, 1⟩]
    ∧ cumulativeQuantity ((sortByTime
        [⟨MovementType.buy, 10, 100, 1000, 2⟩, ⟨MovementType.sell, 5, 100, 500, 1⟩]).take 1)
      < 0 := by
  constructor
  · norm_num [create_movement, calculate_current_holdings, totalBought, totalSold,
      isBuy, isSell, roundTo2, roundHalfEven]
  · norm_num [cumulativeQuantity, sortByTime, insertByTime, totalBought, totalSold, isBuy, isSell]

/-- C2 amended: create_movement validates a sell only against the aggregate
holdings max(0, total bought - total sold) over all existing movements of the
position, ignoring event-time order: the insert is accepted iff the sell
quantity is at most that aggregate, and an accepted insert keeps the final
cumulative quantity nonnegative, but a backdated sell can make an event-time
prefix negative. -/
theorem sell_rejected_iff_exceeds_total_holdings (table : List Movement) (q p : ℚ) (dt : ℤ)
    (hq : 0 < q) (hp : 0 < p) :
    ((∃ T, create_movement table MovementType.sell q p dt = Except.ok T) ↔
      q ≤ calculate_current_holdings table)
    ∧ ∀ T, create_movement table MovementType.sell q p dt = Except.ok T →
        0 ≤ cumulativeQuantity T := by
  have h1 : ¬ q ≤ 0 := not_le.mpr hq
  have h2 : ¬ p ≤ 0 := not_le.mpr hp
  have key : ∀ T, create_movement table MovementType.sell q p dt = Except.ok T →
      q ≤ calculate_current_holdings table ∧
        T = table ++ [⟨MovementType.sell, q, p, roundTo2 (q * p), dt⟩] := by
    intro T hT
    by_cases hc : calculate_current_holdings table < q
    · simp [create_movement, h1, h2, hc] at hT
    · refine ⟨not_lt.mp hc, ?_⟩
      simp [create_movement, h1, h2, hc] at hT
      exact hT.symm
  constructor
  · constructor
    · rintro ⟨T, hT⟩
      exact (key T hT).1
    · intro hle
      refine ⟨table ++ [⟨MovementType.sell, q, p, roundTo2 (q * p), dt⟩], ?_⟩
      simp [create_movement, h1, h2, not_lt.mpr hle]
  · intro T hT
    obtain ⟨hle, hTeq⟩ := key T hT
    subst hTeq
    rw [cumulativeQuantity, totalBought_append_sell table _ rfl, totalSold_append_sell table _ rfl]
    have hbs : q ≤ totalBought table - totalSold table := by
      rcases le_or_lt (totalBought table - totalSold table) 0 with h | h
      · rw [calculate_current_holdings, max_eq_left h] at hle
        linarith
      · rwa [calculate_current_holdings, max_eq_right (le_of_lt h)] at hle
    simp only []
    linarith

theorem sell_rejected_iff_exceeds_total_holdings_witness :
    ((∃ T, create_movement [⟨MovementType.buy, 10, 100, 1000, 2⟩] MovementType.sell 5 100 1
        = Except.ok T) ↔
      5 ≤ calculate_current_holdings [⟨MovementType.buy, 10, 100, 1000, 2⟩])
    ∧ ∀ T, create_movement [⟨MovementType.buy, 10, 100, 1000, 2⟩] MovementType.sell 5 100 1
        = Except.ok T → 0 ≤ cumulativeQuantity T :=
  sell_rejected_iff_exceeds_total_holdings [⟨MovementType.buy, 10, 100, 1000, 2⟩] 5 100 1
    (by norm_num) (by norm_num)

/- Permutation facts for the event-time sort. -/

lemma insertByTime_perm (m : Movement) (l : List Movement) :
    List.Perm (insertByTime m l) (m :: l) := by
  induction l with
  | nil => exact List.Perm.refl _
  | cons x xs ih =>
    simp only [insertByTime]
    by_cases h : x.movement_datetime ≤ m.movement_datetime
    · rw [if_pos h]
      exact (ih.cons x).trans (List.Perm.swap m x xs)
    · rw [if_neg h]

lemma sortByTime_perm (l : List Movement) : List.Perm (sortByTime l) l := by
  induction l with
  | nil => exact List.Perm.refl _
  | cons x xs ih => exact (insertByTime_perm x (sortByTime xs)).trans (ih.cons x)

/- The replay loop accumulates buy totals into total_cost and sell totals into
total_proceeds, whatever the lot queue does. -/

lemma foldl_step_cost (movs : List Movement) (st : HState) :
    (movs.foldl stepMovement st).total_cost
      = st.total_cost + ((movs.filter isBuy).map (fun m => m.total_amount)).sum := by
  induction movs generalizing st with
  | nil => simp
  | cons m rest ih =>
    rw [List.foldl_cons, ih]
    cases hm : m.movement_type with
    | buy =>
      simp [stepMovement, hm, isBuy, List.filter_cons]
      ring
    | sell =>
      simp [stepMovement, hm, isBuy, List.filter_cons]

lemma foldl_step_proceeds (movs : List Movement) (st : HState) :
    (movs.foldl stepMovement st).total_proceeds
      = st.total_proceeds + ((movs.filter isSell).map (fun m => m.total_amount)).sum := by
  induction movs generalizing st with
  | nil => simp
  | cons m rest ih =>
    rw [List.foldl_cons, ih]
    cases hm : m.movement_type with
    | buy =>
      simp [stepMovement, hm, isSell, List.filter_cons]
    | sell =>
      simp [stepMovement, hm, isSell, List.filter_cons]
      ring

/-- C3: get_position_holdings returns total_cost equal to the sum of all buy
totals and total_proceeds equal to the sum of all sell totals, independent of
lot consumption, and realized_pnl equals total_proceeds - (total_cost - value
remaining in the open lots). -/
theorem holdings_cost_proceeds_conservation (movs : List Movement) :
    (get_position_holdings movs).total_cost
        = ((movs.filter isBuy).map (fun m => m.total_amount)).sum
    ∧ (get_position_holdings movs).total_proceeds
        = ((movs.filter isSell).map (fun m => m.total_amount)).sum
    ∧ (get_position_holdings movs).realized_pnl
        = (get_position_holdings movs).total_proceeds
          - ((get_position_holdings movs).total_cost
            - lotsValue (get_position_holdings movs).fifo_lots) := by
  refine ⟨?_, ?_, ?_⟩
  · show ((sortByTime movs).foldl stepMovement ⟨0, 0, 0, []⟩).total_cost = _
    rw [foldl_step_cost]
    simpa using (((sortByTime_perm movs).filter isBuy).map (fun m => m.total_amount)).sum_eq
  · show ((sortByTime movs).foldl stepMovement ⟨0, 0, 0, []⟩).total_proceeds = _
    rw [foldl_step_proceeds]
    simpa using (((sortByTime_perm movs).filter isSell).map (fun m => m.total_amount)).sum_eq
  · rfl

/-- C8: the realized P&L of InvestmentPositionDB.get_position_summary disagrees
with the FIFO realized P&L of MovementDB.get_position_holdings on a partially
sold position (buy 10 @ 100 then sell 5 @ 150): the summary helper yields 0,
the FIFO helper yields 250. -/
theorem summary_vs_holdings_realized_pnl_diverge :
    (get_position_summary
        [⟨MovementType.buy, 10, 100, 1000, 1⟩, ⟨MovementType.sell, 5, 150, 750, 2⟩]).realized_pnl
      ≠ (get_position_holdings
        [⟨MovementType.buy, 10, 100, 1000, 1⟩, ⟨MovementType.sell, 5, 150, 750, 2⟩]).realized_pnl := by
  norm_num [get_position_summary, get_position_holdings, sortByTime, insertByTime, stepMovement,
    sellFromLots, lotsValue, totalBought, totalSold, isBuy, isSell, List.foldl]

/-- C9: the update path stores the bare product as total_amount.  Updating the
quantity of a buy priced 0.333 to 3 stores 0.999, while rounding the product to
two decimals gives 1.00 — the create path would have stored the rounded value,
and the stored row therefore violates the 2-decimal rounding the claim states. -/
theorem update_movement_stores_unrounded_total :
    update_movement [⟨MovementType.buy, 1, 333/1000, 33/100, 0⟩] 0 (some 3) none none
      = Except.ok (some [⟨MovementType.buy, 3, 333/1000, 999/1000, 0⟩])
    ∧ roundTo2 ((3 : ℚ) * (333/1000)) ≠ (999 : ℚ)/1000 := by
  constructor
  · norm_num [update_movement, qtyError, priceError, calculate_current_holdings,
      totalBought, totalSold, isBuy, isSell, List.set]
    rw [if_neg (by decide : ¬ (MovementType.buy = MovementType.sell))]
  · norm_num [roundTo2, roundHalfEven]

/-- C10: update_movement runs the insufficient-holdings check iff the target is
a sell and a new quantity is supplied, erroring exactly when the new quantity
exceeds max(0, total bought - total sold) plus the movement's own old quantity;
updates that supply no new quantity (price or event-timestamp only) always
succeed; and an accepted decrease of a buy quantity can leave total sold
exceeding total bought. -/
theorem update_holdings_check_only_for_sell_quantity :
    (∀ (table : List Movement) (i : Nat) (m : Movement) (q : ℚ) (p : Option ℚ)
        (dt : Option ℤ), table[i]? = some m → 0 < q →
        (update_movement table i (some q) p dt
            = Except.error ("Insufficient holdings for update")
          ↔ m.movement_type = MovementType.sell ∧
              calculate_current_holdings table + m.quantity < q))
    ∧ (∀ (table : List Movement) (i : Nat) (m : Movement) (p : ℚ) (dt : Option ℤ),
        table[i]? = some m → 0 < p →
        ∃ T, update_movement table i none (some p) dt = Except.ok (some T))
    ∧ (∀ (table : List Movement) (i : Nat) (m : Movement) (dt : ℤ),
        table[i]? = some m →
        ∃ T, update_movement table i none none (some dt) = Except.ok (some T))
    ∧ (update_movement
          [⟨MovementType.buy, 10, 100, 1000, 1⟩, ⟨MovementType.sell, 10, 100, 1000, 2⟩]
          0 (some 1) none none
        = Except.ok (some
            [⟨MovementType.buy, 1, 100, 100, 1⟩, ⟨MovementType.sell, 10, 100, 1000, 2⟩])
        ∧ totalBought [⟨MovementType.buy, 1, 100, 100, 1⟩, ⟨MovementType.sell, 10, 100, 1000, 2⟩]
            < totalSold [⟨MovementType.buy, 1, 100, 100, 1⟩, ⟨MovementType.sell, 10, 100, 1000, 2⟩]) := by
  refine ⟨?_, ?_, ?_, ?_⟩
  · intro table i m q p dt hi hq
    have hql : ¬ q ≤ 0 := not_le.mpr hq
    by_cases hc : m.movement_type = MovementType.sell ∧
        calculate_current_holdings table + m.quantity < q
    · simp [update_movement, hi, qtyError, hql, hc]
    · rcases hpe : priceError p with _ | e
      · simp [update_movement, hi, qtyError, hql, hc, hpe]
      · have he : e = "price_per_unit must be positive" := by
          rcases p with _ | pv
          · simp [priceError] at hpe
          · by_cases hpv : pv ≤ 0
            · simp [priceError, hpv] at hpe
              exact hpe.symm
            · simp [priceError, hpv] at hpe
        subst he
        simp [update_movement, hi, qtyError, hql, hc, hpe]
  · intro table i m p dt hi hp
    refine ⟨table.set i
      { m with
        price_per_unit := p
        total_amount := m.quantity * p
        movement_datetime := dt.getD m.movement_datetime }, ?_⟩
    simp [update_movement, hi, qtyError, priceError, not_le.mpr hp]
  · intro table i m dt hi
    exact ⟨table.set i { m with movement_datetime := dt },
      by simp [update_movement, hi, qtyError, priceError]⟩
  · constructor
    · norm_num [update_movement, qtyError, priceError, calculate_current_holdings,
        totalBought, totalSold, isBuy, isSell, List.set]
    · norm_num [totalBought, totalSold, isBuy, isSell]

theorem update_holdings_check_only_for_sell_quantity_witness :
    (update_movement
        [⟨MovementType.buy, 10, 100, 1000, 1⟩, ⟨MovementType.sell, 10, 100, 1000, 2⟩]
        1 (some 25) none none
      = Except.error ("Insufficient holdings for update")
      ↔ (⟨MovementType.sell, 10, 100, 1000, 2⟩ : Movement).movement_type = MovementType.sell ∧
          calculate_current_holdings
              [⟨MovementType.buy, 10, 100, 1000, 1⟩, ⟨MovementType.sell, 10, 100, 1000, 2⟩]
            + (⟨MovementType.sell, 10, 100, 1000, 2⟩ : Movement).quantity < 25)
    ∧ (∃ T, update_movement [⟨MovementType.buy, 10, 100, 1000, 1⟩] 0 none (some 120) none
        = Except.ok (some T))
    ∧ (∃ T, update_movement [⟨MovementType.buy, 10, 100, 1000, 1⟩] 0 none none (some 7)
        = Except.ok (some T)) :=
  ⟨update_holdings_check_only_for_sell_quantity.1
      [⟨MovementType.buy, 10, 100, 1000, 1⟩, ⟨MovementType.sell, 10, 100, 1000, 2⟩]
      1 ⟨MovementType.sell, 10, 100, 1000, 2⟩ 25 none none (by simp) (by norm_num),
   update_holdings_check_only_for_sell_quantity.2.1
      [⟨MovementType.buy, 10, 100, 1000, 1⟩] 0 ⟨MovementType.buy, 10, 100, 1000, 1⟩ 120 none
      (by simp) (by norm_num),
   update_holdings_check_only_for_sell_quantity.2.2.1
      [⟨MovementType.buy, 10, 100, 1000, 1⟩] 0 ⟨MovementType.buy, 10, 100, 1000, 1⟩ 7
      (by simp)⟩

/- Shape of a successful insert through Transaction.save. -/

lemma Transaction_save_ok_insert (st : TxStore) (t : PyTransaction) (st2 : TxStore)
    (u : PyTransaction) (hid : t.id = none)
    (h : Transaction_save st t = (st2, Except.ok u)) :
    ∃ a d, t.amount = some a ∧ t.transaction_date = some d ∧
      st2.transactions = st.transactions ++
        [⟨freshId st.transactions, a, t.description, d, t.card_id, t.section_id, t.category,
          t.is_internal_transfer, t.transfer_from_type, t.transfer_from_id,
          t.transfer_to_type, t.transfer_to_id⟩]
      ∧ st2.cards = st.cards ∧ st2.sections = st.sections := by
  unfold Transaction_save at h
  rw [hid] at h
  split at h
  · simp at h
  · rcases ha : t.amount with _ | a <;> rcases hd : t.transaction_date with _ | d <;>
      rw [ha, hd] at h <;> simp at h
    obtain ⟨h1, h2⟩ := h
    subst h1
    exact ⟨a, d, rfl, rfl, by simp, by simp, by simp⟩

/-- C4: an accepted internal-transfer creation through the service layer appends
exactly two rows to the store — a debit of -|x| then a credit of +|x| — both
flagged internal, with identical transfer endpoint fields and the identical
event date; and every successful Transaction.create_internal_transfer likewise
appends exactly two such rows. -/
theorem internal_transfer_creates_exact_pair :
    (∀ (store : List Txn) (sections : List (Nat × Nat)) (amount : ℚ) (description : String)
        (d : ℤ) (card_id section_id : Option Nat) (category : Option String)
        (fty tty : TransferType) (fid tid : Nat), fid ≠ 0 → tid ≠ 0 →
        ∃ deb cred,
          service_create_transaction store sections amount description d card_id section_id
              category true (some fty) (some fid) (some tty) (some tid)
            = Except.ok (cred, store ++ [deb, cred])
          ∧ deb.amount = -|amount| ∧ cred.amount = |amount|
          ∧ deb.is_internal_transfer = true ∧ cred.is_internal_transfer = true
          ∧ deb.transfer_from_type = some fty ∧ cred.transfer_from_type = some fty
          ∧ deb.transfer_from_id = some fid ∧ cred.transfer_from_id = some fid
          ∧ deb.transfer_to_type = some tty ∧ cred.transfer_to_type = some tty
          ∧ deb.transfer_to_id = some tid ∧ cred.transfer_to_id = some tid
          ∧ deb.transaction_date = d ∧ cred.transaction_date = d)
    ∧ (∀ (st : TxStore) (amount : ℚ) (description : String) (fc tc : Nat) (d : ℤ)
        (st2 : TxStore) (p1 p2 : PyTransaction),
        Transaction_create_internal_transfer st amount description fc tc d
          = (st2, Except.ok (p1, p2)) →
        ∃ r1 r2,
          st2.transactions = st.transactions ++ [r1, r2]
          ∧ r1.amount = -|amount| ∧ r2.amount = |amount|
          ∧ r1.is_internal_transfer = true ∧ r2.is_internal_transfer = true
          ∧ r1.transfer_from_type = some TransferType.card
          ∧ r2.transfer_from_type = some TransferType.card
          ∧ r1.transfer_from_id = some fc ∧ r2.transfer_from_id = some fc
          ∧ r1.transfer_to_type = some TransferType.card
          ∧ r2.transfer_to_type = some TransferType.card
          ∧ r1.transfer_to_id = some tc ∧ r2.transfer_to_id = some tc
          ∧ r1.transaction_date = d ∧ r2.transaction_date = d) := by
  constructor
  · intro store sections amount description d card_id section_id category fty tty fid tid hf ht
    have hc : ¬ (fid = 0 ∨ tid = 0) := by
      rintro (h | h)
      · exact hf h
      · exact ht h
    have hkey :
        service_create_transaction store sections amount description d card_id section_id
            category true (some fty) (some fid) (some tty) (some tid)
          = Except.ok
              (⟨freshId (store ++
                  [⟨freshId store, -|amount|,
                    description ++ " (Transfer out to " ++ tty.typeName ++ ")", d,
                    (if fty = TransferType.card then some fid else none), none, category, true,
                    some fty, some fid, some tty, some tid⟩]), |amount|,
                description ++ " (Transfer in from " ++ fty.typeName ++ ")", d,
                (if tty = TransferType.card then some tid else none), none, category, true,
                some fty, some fid, some tty, some tid⟩,
              store ++
                [⟨freshId store, -|amount|,
                  description ++ " (Transfer out to " ++ tty.typeName ++ ")", d,
                  (if fty = TransferType.card then some fid else none), none, category, true,
                  some fty, some fid, some tty, some tid⟩,
                 ⟨freshId (store ++
                    [⟨freshId store, -|amount|,
                      description ++ " (Transfer out to " ++ tty.typeName ++ ")", d,
                      (if fty = TransferType.card then some fid else none), none, category, true,
                      some fty, some fid, some tty, some tid⟩]), |amount|,
                  description ++ " (Transfer in from " ++ fty.typeName ++ ")", d,
                  (if tty = TransferType.card then some tid else none), none, category, true,
                  some fty, some fid, some tty, some tid⟩]) := by
      simp [service_create_transaction, hc, service_create_internal_transfer,
        db_create_transaction]
    exact ⟨_, _, hkey, rfl, rfl, rfl, rfl, rfl, rfl, rfl, rfl, rfl, rfl, rfl, rfl, rfl, rfl⟩
  · intro st amount description fc tc d st2 p1 p2 h
    simp only [Transaction_create_internal_transfer] at h
    split at h
    · simp at h
    · next st1 debitSaved heq =>
      split at h
      · simp at h
      · next st2v creditSaved heq2 =>
        simp only [Prod.mk.injEq, Except.ok.injEq] at h
        obtain ⟨h1, h2, h3⟩ := h
        subst h1
        obtain ⟨a1, d1, ha1, hd1, hT1, hc1, hs1⟩ :=
          Transaction_save_ok_insert st _ st1 _ rfl heq
        obtain ⟨a2, d2, ha2, hd2, hT2, hc2, hs2⟩ :=
          Transaction_save_ok_insert st1 _ st2v _ rfl heq2
        simp only [Option.some.injEq] at ha1 hd1 ha2 hd2
        subst ha1
        subst hd1
        subst ha2
        subst hd2
        refine ⟨⟨freshId st.transactions, -|amount|,
            "Transfer to card " ++ toString tc ++ ": " ++ description, d,
            some fc, none, none, true, some TransferType.card, some fc,
            some TransferType.card, some tc⟩,
          ⟨freshId st1.transactions, |amount|,
            "Transfer from card " ++ toString fc ++ ": " ++ description, d,
            some tc, none, none, true, some TransferType.card, some fc,
            some TransferType.card, some tc⟩,
          ?_, rfl, rfl, rfl, rfl, rfl, rfl, rfl, rfl, rfl, rfl, rfl, rfl, rfl, rfl⟩
        rw [hT2, hT1, List.append_assoc]
        rfl

theorem internal_transfer_creates_exact_pair_witness :
    (∃ deb cred,
        service_create_transaction [] [] 200 "rent" 5 none none none true
            (some TransferType.card) (some 1) (some TransferType.cash) (some 2)
          = Except.ok (cred, [] ++ [deb, cred])
        ∧ deb.amount = -|(200 : ℚ)| ∧ cred.amount = |(200 : ℚ)|
        ∧ deb.is_internal_transfer = true ∧ cred.is_internal_transfer = true
        ∧ deb.transfer_from_type = some TransferType.card
        ∧ cred.transfer_from_type = some TransferType.card
        ∧ deb.transfer_from_id = some 1 ∧ cred.transfer_from_id = some 1
        ∧ deb.transfer_to_type = some TransferType.cash
        ∧ cred.transfer_to_type = some TransferType.cash
        ∧ deb.transfer_to_id = some 2 ∧ cred.transfer_to_id = some 2
        ∧ deb.transaction_date = 5 ∧ cred.transaction_date = 5)
    ∧ (∃ r1 r2,
        (Transaction_create_internal_transfer ⟨[1, 2], [], []⟩ 200 "rent" 1 2 0).1.transactions
          = (⟨[1, 2], [], []⟩ : TxStore).transactions ++ [r1, r2]
        ∧ r1.amount = -|(200 : ℚ)| ∧ r2.amount = |(200 : ℚ)|
        ∧ r1.is_internal_transfer = true ∧ r2.is_internal_transfer = true
        ∧ r1.transfer_from_type = some TransferType.card
        ∧ r2.transfer_from_type = some TransferType.card
        ∧ r1.transfer_from_id = some 1 ∧ r2.transfer_from_id = some 1
        ∧ r1.transfer_to_type = some TransferType.card
        ∧ r2.transfer_to_type = some TransferType.card
        ∧ r1.transfer_to_id = some 2 ∧ r2.transfer_to_id = some 2
        ∧ r1.transaction_date = 0 ∧ r2.transaction_date = 0) :=
  ⟨internal_transfer_creates_exact_pair.1 [] [] 200 "rent" 5 none none none
      TransferType.card TransferType.cash 1 2 (by decide) (by decide),
   internal_transfer_creates_exact_pair.2 ⟨[1, 2], [], []⟩ 200 "rent" 1 2 0
      (Transaction_create_internal_transfer ⟨[1, 2], [], []⟩ 200 "rent" 1 2 0).1
      ⟨some 1, some (-200), "Transfer to card 2: rent", some 0, some 1, none, none, true,
        some TransferType.card, some 1, some TransferType.card, some 2⟩
      ⟨some 2, some 200, "Transfer from card 1: rent", some 0, some 2, none, none, true,
        some TransferType.card, some 1, some TransferType.card, some 2⟩
      rfl⟩

/- Post-state shape of Transaction.save on an insert: either an error with the
store untouched, or exactly one appended row. -/

lemma Transaction_save_post_shape (st : TxStore) (t : PyTransaction) (hid : t.id = none) :
    ((Transaction_save st t).1 = st ∧ ∃ e, (Transaction_save st t).2 = Except.error e)
    ∨ (∃ r, (Transaction_save st t).1.transactions = st.transactions ++ [r]
        ∧ ∃ u, (Transaction_save st t).2 = Except.ok u) := by
  unfold Transaction_save
  rw [hid]
  split
  · exact Or.inl ⟨rfl, _, rfl⟩
  · rcases ha : t.amount with _ | a <;> rcases hd : t.transaction_date with _ | d
    · exact Or.inl ⟨rfl, _, rfl⟩
    · exact Or.inl ⟨rfl, _, rfl⟩
    · exact Or.inl ⟨rfl, _, rfl⟩
    · exact Or.inr ⟨⟨freshId st.transactions, a, t.description, d, t.card_id, t.section_id,
        t.category, t.is_internal_transfer, t.transfer_from_type, t.transfer_from_id,
        t.transfer_to_type, t.transfer_to_id⟩, rfl, _, rfl⟩

/-- C6 counterexample: with destination card 2 absent from the cards table,
Transaction.create_internal_transfer commits the debit row and then fails
validating the credit: the error is surfaced but the store is left holding an
orphaned half-pair, so the two writes are not one rolled-back transaction. -/
theorem internal_transfer_not_atomic_counterexample :
    (Transaction_create_internal_transfer ⟨[1], [], []⟩ 200 "rent" 1 2 0).2
        = Except.error ("Validation errors")
    ∧ (Transaction_create_internal_transfer ⟨[1], [], []⟩ 200 "rent" 1 2 0).1.transactions
        = [⟨1, -200, "Transfer to card 2: rent", 0, some 1, none, none, true,
            some TransferType.card, some 1, some TransferType.card, some 2⟩] :=
  ⟨rfl, rfl⟩

/-- C6 amended: the two inserts of Transaction.create_internal_transfer commit
independently: every run ends with both rows appended and a success, or no row
appended and a surfaced error, or — when the credit save fails after the debit
committed — exactly one appended row with the error still surfaced; there is no
enclosing transaction that rolls the first write back. -/
theorem internal_transfer_inserts_commit_independently (st : TxStore) (amount : ℚ)
    (description : String) (fc tc : Nat) (d : ℤ) :
    (∃ p r1 r2,
        (Transaction_create_internal_transfer st amount description fc tc d).2 = Except.ok p
        ∧ (Transaction_create_internal_transfer st amount description fc tc d).1.transactions
            = st.transactions ++ [r1, r2])
    ∨ ((∃ e, (Transaction_create_internal_transfer st amount description fc tc d).2
            = Except.error e)
        ∧ (Transaction_create_internal_transfer st amount description fc tc d).1.transactions
            = st.transactions)
    ∨ ((∃ e, (Transaction_create_internal_transfer st amount description fc tc d).2
            = Except.error e)
        ∧ ∃ r1,
            (Transaction_create_internal_transfer st amount description fc tc d).1.transactions
              = st.transactions ++ [r1]) := by
  simp only [Transaction_create_internal_transfer]
  split
  · next st1 e heq =>
    have hdeb := Transaction_save_post_shape st
      ⟨none, some (-|amount|), "Transfer to card " ++ toString tc ++ ": " ++ description,
        some d, some fc, none, none, true, some TransferType.card, some fc,
        some TransferType.card, some tc⟩ rfl
    rw [heq] at hdeb
    simp only [Prod.fst, Prod.snd] at hdeb
    rcases hdeb with ⟨h1, _⟩ | ⟨r, h1, u, h2⟩
    · subst h1
      exact Or.inr (Or.inl ⟨⟨e, rfl⟩, rfl⟩)
    · simp at h2
  · next st1 debitSaved heq =>
    split
    · next st2 e2 heq2 =>
      have hdeb := Transaction_save_post_shape st
        ⟨none, some (-|amount|), "Transfer to card " ++ toString tc ++ ": " ++ description,
          some d, some fc, none, none, true, some TransferType.card, some fc,
          some TransferType.card, some tc⟩ rfl
      rw [heq] at hdeb
      have hcred := Transaction_save_post_shape st1
        ⟨none, some |amount|, "Transfer from card " ++ toString fc ++ ": " ++ description,
          some d, some tc, none, none, true, some TransferType.card, some fc,
          some TransferType.card, some tc⟩ rfl
      rw [heq2] at hcred
      simp only [Prod.fst, Prod.snd] at hdeb hcred
      rcases hdeb with ⟨_, _, h2⟩ | ⟨r, h1, _⟩
      · simp at h2
      · rcases hcred with ⟨hc1, _⟩ | ⟨r2, _, u2, hbad⟩
        · subst hc1
          exact Or.inr (Or.inr ⟨⟨e2, rfl⟩, r, h1⟩)
        · simp at hbad
    · next st2 creditSaved heq2 =>
      have hdeb := Transaction_save_post_shape st
        ⟨none, some (-|amount|), "Transfer to card " ++ toString tc ++ ": " ++ description,
          some d, some fc, none, none, true, some TransferType.card, some fc,
          some TransferType.card, some tc⟩ rfl
      rw [heq] at hdeb
      have hcred := Transaction_save_post_shape st1
        ⟨none, some |amount|, "Transfer from card " ++ toString fc ++ ": " ++ description,
          some d, some tc, none, none, true, some TransferType.card, some fc,
          some TransferType.card, some tc⟩ rfl
      rw [heq2] at hcred
      simp only [Prod.fst, Prod.snd] at hdeb hcred
      rcases hdeb with ⟨_, _, h2⟩ | ⟨r, h1, _⟩
      · simp at h2
      · rcases hcred with ⟨_, _, hbad⟩ | ⟨r2, h3, _⟩
        · simp at hbad
        · refine Or.inl ⟨(debitSaved, creditSaved), r, r2, rfl, ?_⟩
          rw [h3, h1, List.append_assoc]
          rfl

/-- C7 counterexample: the update branch of Transaction.save performs no
internal-transfer check: saving an object whose id addresses a stored
internal-transfer row succeeds and overwrites the row's amount in place. -/
theorem save_updates_internal_transfer_row :
    Transaction_save
        ⟨[1, 2], [],
          [⟨1, -200, "t", 0, some 1, none, none, true, some TransferType.card, some 1,
            some TransferType.card, some 2⟩]⟩
        ⟨some 1, some 999, "upd", some 0, some 1, none, none, true, some TransferType.card,
          some 1, some TransferType.card, some 2⟩
      = (⟨[1, 2], [],
          [⟨1, 999, "upd", 0, some 1, none, none, true, some TransferType.card, some 1,
            some TransferType.card, some 2⟩]⟩,
         Except.ok ⟨some 1, some 999, "upd", some 0, some 1, none, none, true,
           some TransferType.card, some 1, some TransferType.card, some 2⟩) :=
  rfl

/-- C7 amended: the service layer rejects every update of an internal-transfer
record with a validation error, leaving the store unchanged, but the update
branch of Transaction.save itself performs no internal-transfer check and
overwrites the bounded fields of the addressed row whenever validation
passes. -/
theorem internal_transfer_update_rejected_only_in_service :
    (∀ (store : List Txn) (i : Nat) (t : Txn) (amount : Option ℚ)
        (description : Option String) (transaction_date : Option ℤ)
        (category : Option String),
        db_get_transaction store i = some t → t.is_internal_transfer = true →
        service_update_transaction store i amount description transaction_date category
          = (store, Except.error ("Cannot update internal transfer transactions")))
    ∧ (∀ (st : TxStore) (t : PyTransaction) (i : Nat) (a : ℚ) (d : ℤ),
        t.id = some i → t.amount = some a → t.transaction_date = some d →
        Transaction_validate st t = [] →
        Transaction_save st t
          = ({ st with
               transactions := st.transactions.map (fun r =>
                 if r.id = i then
                   { r with
                     amount := a
                     description := t.description
                     transaction_date := d
                     category := t.category }
                 else r) },
             Except.ok t)) := by
  constructor
  · intro store i t amount description transaction_date category h1 h2
    simp [service_update_transaction, h1, h2]
  · intro st t i a d hid ha hd hv
    simp [Transaction_save, hid, ha, hd, hv]

theorem internal_transfer_update_rejected_only_in_service_witness :
    (service_update_transaction
        [⟨1, -200, "t", 0, some 1, none, none, true, some TransferType.card, some 1,
          some TransferType.card, some 2⟩] 1 (some 5) none none none
      = ([⟨1, -200, "t", 0, some 1, none, none, true, some TransferType.card, some 1,
          some TransferType.card, some 2⟩],
         Except.error ("Cannot update internal transfer transactions")))
    ∧ (Transaction_save ⟨[], [], []⟩
        ⟨some 5, some 7, "x", some 0, none, none, none, false, none, none, none, none⟩
      = (⟨[], [], ([] : List Txn).map (fun r =>
            if r.id = 5 then
              { r with
                amount := 7
                description := "x"
                transaction_date := 0
                category := none }
            else r)⟩,
         Except.ok ⟨some 5, some 7, "x", some 0, none, none, none, false, none, none,
           none, none⟩)) :=
  ⟨internal_transfer_update_rejected_only_in_service.1
      [⟨1, -200, "t", 0, some 1, none, none, true, some TransferType.card, some 1,
        some TransferType.card, some 2⟩] 1
      ⟨1, -200, "t", 0, some 1, none, none, true, some TransferType.card, some 1,
        some TransferType.card, some 2⟩ (some 5) none none none rfl rfl,
   internal_transfer_update_rejected_only_in_service.2 ⟨[], [], []⟩
      ⟨some 5, some 7, "x", some 0, none, none, none, false, none, none, none, none⟩
      5 7 0 rfl rfl rfl rfl⟩

/-- C5 counterexample: deleting an orphaned internal-transfer half whose sibling
does not exist silently deletes the lone record and reports success — no
not-found or integrity error is surfaced. -/
theorem orphan_transfer_delete_reports_success :
    service_delete_transaction
        [⟨1, -200, "x", 0, some 1, none, none, true, some TransferType.card, some 1,
          some TransferType.card, some 2⟩] 1
      = (true, []) :=
  rfl

/- The delete fold of _delete_internal_transfer removes exactly the rows whose
ids occur in the looked-up pair list, and succeeds when ids are unique. -/

lemma foldl_delete_spec (L : List Txn) (s : List Txn) (b : Bool)
    (hsub : ∀ p ∈ L, p ∈ s)
    (hLid : (L.map (fun r => r.id)).Nodup)
    (hsid : (s.map (fun r => r.id)).Nodup) :
    L.foldl (fun acc p =>
        let r := db_delete_transaction acc.2 p.id
        (acc.1 && r.1, r.2)) (b, s)
      = (b, s.filter (fun r => L.all (fun x => r.id != x.id))) := by
  induction L generalizing s b with
  | nil => simp
  | cons p L2 ih =>
    rw [List.foldl_cons]
    have hps : p ∈ s := hsub p (List.mem_cons_self p L2)
    have hany : s.any (fun t => t.id == p.id) = true :=
      List.any_eq_true.mpr ⟨p, hps, by simp⟩
    have hstep : db_delete_transaction s p.id
        = (true, s.filter (fun t => t.id != p.id)) := by
      rw [db_delete_transaction, if_pos hany]
    rw [hstep]
    have hL2sub : ∀ q ∈ L2, q ∈ s.filter (fun t => t.id != p.id) := by
      intro q hq
      have hqs : q ∈ s := hsub q (List.mem_cons_of_mem p hq)
      have hqid : q.id ≠ p.id := by
        intro hEq
        have : p.id ∈ L2.map (fun r => r.id) := hEq ▸ List.mem_map_of_mem _ hq
        exact (List.nodup_cons.mp hLid).1 this
      exact List.mem_filter.mpr ⟨hqs, by simpa [bne] using hqid⟩
    have hL2id : (L2.map (fun r => r.id)).Nodup := (List.nodup_cons.mp hLid).2
    have hs2id : ((s.filter (fun t => t.id != p.id)).map (fun r => r.id)).Nodup :=
      List.Nodup.sublist (List.Sublist.map _ (List.filter_sublist s)) hsid
    rw [ih (s.filter (fun t => t.id != p.id)) (b && true) hL2sub hL2id hs2id]
    rw [List.filter_filter]
    simp only [Bool.and_true, List.all_cons, Prod.mk.injEq, true_and]
    apply List.filter_congr
    intro x hx
    rw [Bool.and_comm]

lemma pair_all_ne_iff (store : List Txn) (mt : Txn → Bool) (r : Txn) (hr : r ∈ store)
    (hnodup : (store.map (fun x => x.id)).Nodup) :
    (store.filter mt).all (fun x => r.id != x.id) = !mt r := by
  cases hmt : mt r with
  | true =>
    have hrf : r ∈ store.filter mt := List.mem_filter.mpr ⟨hr, hmt⟩
    simp only [Bool.not_true]
    exact List.all_eq_false.mpr ⟨r, hrf, by simp⟩
  | false =>
    simp only [Bool.not_false]
    apply List.all_eq_true.mpr
    intro x hx
    have hxs := List.mem_filter.mp hx
    have hxr : x ≠ r := by
      intro h
      rw [h] at hxs
      rw [hxs.2] at hmt
      simp at hmt
    have hne : r.id ≠ x.id := by
      intro hEq
      exact hxr (List.inj_on_of_nodup_map hnodup hxs.1 hr hEq.symm)
    simpa [bne] using hne

/-- C5 amended: when ids are unique, deleting either record of an internal
transfer removes every stored row sharing the record's transfer endpoints and
event date — both halves of a proper pair, or just the lone record when the
sibling is missing — and reports success (true) in both situations; no
not-found or integrity error is ever surfaced by the delete path. -/
theorem delete_internal_transfer_removes_all_matching (store : List Txn) (i : Nat) (t : Txn)
    (hfind : db_get_transaction store i = some t) (hint : t.is_internal_transfer = true)
    (hnodup : (store.map (fun r => r.id)).Nodup) :
    service_delete_transaction store i =
      (true, store.filter (fun r =>
        !matchesTransfer t.transfer_from_type t.transfer_from_id t.transfer_to_type
          t.transfer_to_id t.transaction_date r)) := by
  have hmain : service_delete_internal_transfer store t =
      (true, store.filter (fun r =>
        !matchesTransfer t.transfer_from_type t.transfer_from_id t.transfer_to_type
          t.transfer_to_id t.transaction_date r)) := by
    rw [service_delete_internal_transfer, db_get_internal_transfer_pair]
    rw [foldl_delete_spec _ store true
      (fun p hp => List.mem_of_mem_filter hp)
      (List.Nodup.sublist (List.Sublist.map _ (List.filter_sublist store)) hnodup)
      hnodup]
    congr 1
    apply List.filter_congr
    intro r hr
    exact pair_all_ne_iff store _ r hr hnodup
  simp [service_delete_transaction, hfind, hint, hmain]

theorem delete_internal_transfer_removes_all_matching_witness :
    service_delete_transaction
        [⟨1, -200, "x", 0, some 1, none, none, true, some TransferType.card, some 1,
          some TransferType.card, some 2⟩,
         ⟨2, 200, "y", 0, some 2, none, none, true, some TransferType.card, some 1,
          some TransferType.card, some 2⟩,
         ⟨3, 50, "z", 9, some 1, none, none, false, none, none, none, none⟩] 1
      = (true,
        [⟨1, -200, "x", 0, some 1, none, none, true, some TransferType.card, some 1,
          some TransferType.card, some 2⟩,
         ⟨2, 200, "y", 0, some 2, none, none, true, some TransferType.card, some 1,
          some TransferType.card, some 2⟩,
         ⟨3, 50, "z", 9, some 1, none, none, false, none, none, none, none⟩].filter
          (fun r => !matchesTransfer (some TransferType.card) (some 1)
            (some TransferType.card) (some 2) 0 r)) :=
  delete_internal_transfer_removes_all_matching
    [⟨1, -200, "x", 0, some 1, none, none, true, some TransferType.card, some 1,
      some TransferType.card, some 2⟩,
     ⟨2, 200, "y", 0, some 2, none, none, true, some TransferType.card, some 1,
      some TransferType.card, some 2⟩,
     ⟨3, 50, "z", 9, some 1, none, none, false, none, none, none, none⟩] 1
    ⟨1, -200, "x", 0, some 1, none, none, true, some TransferType.card, some 1,
      some TransferType.card, some 2⟩ rfl rfl (by simp)

end PersonalFinances
